import Mathlib

/-!
Verification development for the Monte-Carlo option-pricing web application
(repository `Monte-Carlo-Simulation-for-Option-Pricing`).

The repository ships a front-end controller `static/script.js`; its handlers
are embedded below as pure Lean functions.  A handler's asynchronous
control flow (`fetch` / `await` / `try`-`catch`-`finally`) is embedded by
indexing the handler over the outcome of its single network request: the
response arrived with an ok status, the response arrived with a non-ok
status (carrying the parsed body's `error` field, possibly absent), or an
exception was thrown (network or parse failure).  DOM element values are
embedded as JSON-ready values (`JsVal`); JavaScript's number-to-string
coercion on input assignment is elided, which no claim below depends on.

The analytical pricing backend and the parameter validator are not part of
the sources; they are modelled from the specification where a claim needs
them (each such definition carries a doc comment saying so).
-/

/-- Value of a DOM input or a JSON field: a string or a (rational-modelled)
number. -/
inductive JsVal where
  | str (s : String)
  | num (x : ℚ)
deriving DecidableEq

/-- Modelled from the spec: the page's HTML is not under `src/`; per §6 the
method dropdown offers exactly the three variance-reduction methods, so the
custom options' `data-value` attributes are the three request method tags. -/
inductive Method where
  | standard
  | antithetic
  | controlVariate
deriving DecidableEq

/-- The `data-value` attribute of each custom dropdown option
(`this.dataset.value` in the option click handler). -/
def Method.dataValue : Method → String
  | .standard => "standard"
  | .antithetic => "antithetic"
  | .controlVariate => "control_variate"

/-- The part of the page state the custom-dropdown handlers read and write:
the hidden `method` input's value, whether the convergence button carries
the `hidden` class, and whether the dropdown trigger carries the `open`
class (`script.js` lines 27-62). -/
structure UIState where
  methodValue : String
  convergenceHidden : Bool
  triggerOpen : Bool
deriving DecidableEq

/-- The DOM events the dropdown code listens to: a click on a custom
option, a click on the select trigger, and a document click outside the
trigger. -/
inductive UIEvent where
  | optionClick (m : Method)
  | triggerClick
  | outsideClick
deriving DecidableEq

/-- One step of the dropdown state machine, from `script.js`:
the option click handler (lines 33-56) stores the option's `data-value` in
the hidden input, adds the `hidden` class to the convergence button exactly
when that value is `antithetic` and removes it otherwise, and closes the
trigger; the trigger click toggles `open` (lines 27-31); a document click
outside removes `open` (lines 58-62). -/
def uiStep (s : UIState) : UIEvent → UIState
  | .optionClick m =>
      { methodValue := m.dataValue
        convergenceHidden := if m.dataValue = "antithetic" then true else false
        triggerOpen := false }
  | .triggerClick => { s with triggerOpen := !s.triggerOpen }
  | .outsideClick => { s with triggerOpen := false }

/-- Modelled from the spec: the initial DOM state (HTML not under `src/`).
The default method is `standard` (the script itself falls back to
`'standard'` when the select is absent) and the convergence button starts
without the `hidden` class, convergence being offered for the default
method. -/
def uiInit : UIState :=
  { methodValue := "standard", convergenceHidden := false, triggerOpen := false }

/-- The dropdown state reached after a sequence of DOM events. -/
def uiRun (evs : List UIEvent) : UIState :=
  evs.foldl uiStep uiInit

/-- The form inputs read by the request handlers.  `q` is an `Option`
because the script guards every access to the dividend-yield input with a
null check (`q ? ... : ...`, `if (q) ...`). -/
structure FormState where
  tickerValue : String
  S0 : JsVal
  K : JsVal
  T : JsVal
  r : JsVal
  sigma : JsVal
  q : Option JsVal
  steps : JsVal
deriving DecidableEq

/-- Outcome of one awaited `fetch` + `response.json()` round trip: ok
response with parsed data, non-ok response with the parsed body's `error`
field (absent when the body has none), or a thrown network/parse
exception. -/
inductive Outcome (α : Type) where
  | ok (data : α)
  | httpError (error : Option String)
  | thrown
deriving DecidableEq

/-- What `alert(x)` displays when `x` is `data.error`: the string itself,
or the string `undefined` when the field is absent. -/
def jsAlertString (e : Option String) : String :=
  e.getD "undefined"

/-- The Simulate request body (`script.js` lines 115-124), in field order:
the eight fields posted to `/api/simulate`; `q` falls back to the number
`0.0` when the input is absent, `method` to `standard` would apply only
without the hidden input, which the dropdown handler dereferences
unconditionally, so the hidden input's current value is used. -/
def simulatePayload (fs : FormState) (ui : UIState) : List (String × JsVal) :=
  [("S0", fs.S0), ("K", fs.K), ("T", fs.T), ("r", fs.r), ("sigma", fs.sigma),
   ("q", fs.q.getD (.num 0)), ("steps", fs.steps), ("method", .str ui.methodValue)]

/-- The Convergence request body (`script.js` lines 154-162): the seven
fields posted to `/api/convergence`; no `steps` field. -/
def convergencePayload (fs : FormState) (ui : UIState) : List (String × JsVal) :=
  [("S0", fs.S0), ("K", fs.K), ("T", fs.T), ("r", fs.r), ("sigma", fs.sigma),
   ("q", fs.q.getD (.num 0)), ("method", .str ui.methodValue)]

/-- The `bs` part of a Simulate response. -/
structure BsResult where
  call_price : ℚ
  put_price : ℚ
deriving DecidableEq

/-- The `mc` part of a Simulate response. -/
structure McResult where
  call_price : ℚ
  put_price : ℚ
  call_stderr : ℚ
  put_stderr : ℚ
  steps : List ℚ
  paths : List (List ℚ)
deriving DecidableEq

/-- A Simulate response body. -/
structure SimResponse where
  bs : BsResult
  mc : McResult
deriving DecidableEq

/-- A Convergence response body. -/
structure ConvResponse where
  x : List ℚ
  y : List ℚ
  bs_line : List ℚ
deriving DecidableEq

/-- A stock-data response body. -/
structure FetchData where
  current_price : ℚ
  volatility : ℚ
  risk_free_rate : ℚ
  currency : Option String
deriving DecidableEq

/-- JavaScript's `Number.prototype.toFixed(k)` embedded over rationals:
the value scaled by `10^k`, rounded to the nearest integer, rendered with
exactly `k` fractional digits.  (The tie-breaking of binary doubles is not
modelled; no claim depends on it.) -/
def toFixed (k : ℕ) (x : ℚ) : String :=
  let n : ℤ := round (x * (10 ^ k : ℚ))
  let m : ℕ := n.natAbs
  let fracDigits : String := toString (m % 10 ^ k)
  let pad : String := String.mk (List.replicate (k - fracDigits.length) '0')
  (if n < 0 then "-" else "") ++ toString (m / 10 ^ k) ++ "." ++ pad ++ fracDigits

/-- The result formatter of `displayResults`: currency symbol followed by
the price to four decimals. -/
def formatPrice (cur : String) (x : ℚ) : String :=
  cur ++ toFixed 4 x

/-- The result-display portion of the page written by `displayResults`
(`script.js` lines 189-208): the `hidden` classes of the results and
convergence sections and the text content of the six numeric fields. -/
structure ResultsPanel where
  resultsHidden : Bool
  convergenceSectionHidden : Bool
  bsCallText : String
  bsPutText : String
  mcCallText : String
  mcPutText : String
  mcCallErrText : String
  mcPutErrText : String
deriving DecidableEq

/-- `displayResults(data)` (`script.js` lines 189-208): reveals the results
section, hides the convergence section, and writes all six formatted
numbers.  The chart render it triggers is recorded by the caller. -/
def displayResults (cur : String) (d : SimResponse) : ResultsPanel :=
  { resultsHidden := false
    convergenceSectionHidden := true
    bsCallText := formatPrice cur d.bs.call_price
    bsPutText := formatPrice cur d.bs.put_price
    mcCallText := formatPrice cur d.mc.call_price
    mcPutText := formatPrice cur d.mc.put_price
    mcCallErrText := "±" ++ toFixed 4 d.mc.call_stderr
    mcPutErrText := "±" ++ toFixed 4 d.mc.put_stderr }

/-- Everything one run of the simulate submit handler does. -/
structure SimulateRun where
  url : String
  body : List (String × JsVal)
  alerts : List String
  consoleErrors : ℕ
  panel : ResultsPanel
  chart : Option McResult
  btnLabel : String
  btnDisabled : Bool
deriving DecidableEq

/-- The `paramsForm` submit handler (`script.js` lines 109-146): posts the
payload to `/api/simulate`; on an ok response calls `displayResults` (which
renders the path chart from `data.mc`); on a non-ok response alerts
`data.error`; on a thrown exception only logs to the console.  The
`finally` block restores the button label and enabled state on every
path. -/
def simulateHandler (cur : String) (fs : FormState) (ui : UIState)
    (panel0 : ResultsPanel) (o : Outcome SimResponse) : SimulateRun :=
  { url := "/api/simulate"
    body := simulatePayload fs ui
    alerts := match o with
      | .httpError e => [jsAlertString e]
      | _ => []
    consoleErrors := match o with
      | .thrown => 1
      | _ => 0
    panel := match o with
      | .ok d => displayResults cur d
      | _ => panel0
    chart := match o with
      | .ok d => some d.mc
      | _ => none
    btnLabel := "Run Simulation"
    btnDisabled := false }

/-- Everything one run of the convergence button handler does. -/
structure ConvergenceRun where
  url : String
  body : List (String × JsVal)
  alerts : List String
  consoleErrors : ℕ
  convSectionHidden : Bool
  chart : Option ConvResponse
  btnLabel : String
  btnDisabled : Bool
deriving DecidableEq

/-- The `convergenceBtn` click handler (`script.js` lines 150-186): posts
the payload to `/api/convergence`; on an ok response reveals the
convergence section and renders the convergence chart; on a non-ok
response alerts `data.error`; on a thrown exception only logs to the
console.  The `finally` block restores the button on every path. -/
def convergenceHandler (fs : FormState) (ui : UIState)
    (convHidden0 : Bool) (o : Outcome ConvResponse) : ConvergenceRun :=
  { url := "/api/convergence"
    body := convergencePayload fs ui
    alerts := match o with
      | .httpError e => [jsAlertString e]
      | _ => []
    consoleErrors := match o with
      | .thrown => 1
      | _ => 0
    convSectionHidden := match o with
      | .ok _ => false
      | _ => convHidden0
    chart := match o with
      | .ok d => some d
      | _ => none
    btnLabel := "Analyze Convergence"
    btnDisabled := false }

/-- Everything one run of the fetch-data button handler does. -/
structure FetchRun where
  requested : Bool
  form : FormState
  alerts : List String
  consoleErrors : ℕ
  currency : String
  volSourceText : Option String
  btnLabel : String
  btnDisabled : Bool
deriving DecidableEq

/-- The `fetchBtn` click handler (`script.js` lines 65-106).  With an empty
ticker it returns before touching anything (`requested = false`, button
left as given).  Otherwise, on an ok response it writes the fetched spot
(rounded to 2 decimals) into both `S0` and `K`, the volatility (4
decimals) into `sigma`, the raw rate into `r`, resets `q` to `"0.0"` when
that input exists, updates the currency and the volatility-source label;
on a non-ok response it alerts `data.error` or a fallback message; on a
thrown exception it logs and alerts a connection failure.  The `finally`
block restores the button whenever the request ran. -/
def fetchHandler (fs : FormState) (cur : String) (label0 : String)
    (disabled0 : Bool) (o : Outcome FetchData) : FetchRun :=
  let ticker := fs.tickerValue.toUpper
  -- the source guard is `if (!ticker)` on the upper-cased ticker; upper-casing
  -- preserves emptiness, so the guard is stated on the raw input value
  if fs.tickerValue = "" then
    { requested := false, form := fs, alerts := [], consoleErrors := 0,
      currency := cur, volSourceText := none,
      btnLabel := label0, btnDisabled := disabled0 }
  else
    { requested := true
      form := match o with
        | .ok d =>
            { fs with
              S0 := .str (toFixed 2 d.current_price)
              sigma := .str (toFixed 4 d.volatility)
              r := .num d.risk_free_rate
              K := .str (toFixed 2 d.current_price)
              q := fs.q.map (fun _ => .str "0.0") }
        | _ => fs
      alerts := match o with
        | .ok _ => []
        | .httpError e => [e.getD "Error fetching data"]
        | .thrown => ["Failed to connect to server"]
      consoleErrors := match o with
        | .thrown => 1
        | _ => 0
      currency := match o with
        | .ok d => d.currency.getD "$"
        | _ => cur
      volSourceText := match o with
        | .ok _ => some ("Historical Volatility (1Y) for " ++ ticker)
        | _ => none
      btnLabel := "Fetch Data"
      btnDisabled := false }

/-- Modelled from the spec: the server-side Parameter Validator (§4.1) is
not under `src/`.  Raw scalars arrive already parsed-or-not: a field is
`none` when the supplied value cannot be parsed as a finite real number.
The dividend yield `q` is doubly optional: the outer `none` means the
field is absent (to be defaulted to 0), `some none` means present but
unparseable. -/
structure RawParams where
  S0 : Option ℚ
  K : Option ℚ
  T : Option ℚ
  r : Option ℚ
  sigma : Option ℚ
  q : Option (Option ℚ)
  steps : Option ℤ
  N : Option ℤ
deriving DecidableEq

/-- The single error kind of the Parameter Validator (§4.1, §7). -/
inductive ValidationError where
  | invalidParameter
deriving DecidableEq

/-- Validated option parameters (§3). -/
structure OptionParameters where
  S0 : ℚ
  K : ℚ
  T : ℚ
  r : ℚ
  q : ℚ
  sigma : ℚ
deriving DecidableEq

/-- Validated simulation configuration (§3). -/
structure SimulationConfig where
  steps : ℤ
  N : ℤ
deriving DecidableEq

/-- Modelled from the spec: the Parameter Validator (§4.1).  Fails with
`InvalidParameter` when any of S0, K, T ≤ 0, σ < 0, steps < 1, or N < 1,
or when a value cannot be parsed as a finite real number; defaults `q` to
0 when absent; otherwise returns the normalized pair. -/
def validateParams (p : RawParams) :
    Except ValidationError (OptionParameters × SimulationConfig) :=
  match p.S0, p.K, p.T, p.r, p.sigma, p.q.getD (some 0), p.steps, p.N with
  | some s0, some k, some t, some rr, some sig, some qv, some st, some n =>
      if s0 ≤ 0 ∨ k ≤ 0 ∨ t ≤ 0 ∨ sig < 0 ∨ st < 1 ∨ n < 1 then
        .error .invalidParameter
      else
        .ok ({ S0 := s0, K := k, T := t, r := rr, q := qv, sigma := sig },
             { steps := st, N := n })
  | _, _, _, _, _, _, _, _ => .error .invalidParameter

/-- A raw input violates the validator's domain: some supplied field is
out of domain (S0, K or T nonpositive, σ negative, steps or N below 1) or
some required value is unparseable (including a present-but-unparseable
`q`). -/
def RawParams.invalid (p : RawParams) : Prop :=
  (∃ v, p.S0 = some v ∧ v ≤ 0) ∨ (∃ v, p.K = some v ∧ v ≤ 0) ∨
  (∃ v, p.T = some v ∧ v ≤ 0) ∨ (∃ v, p.sigma = some v ∧ v < 0) ∨
  (∃ v, p.steps = some v ∧ v < 1) ∨ (∃ v, p.N = some v ∧ v < 1) ∨
  p.S0 = none ∨ p.K = none ∨ p.T = none ∨ p.r = none ∨ p.sigma = none ∨
  p.q = some none ∨ p.steps = none ∨ p.N = none

/-- Modelled from the spec: Φ, the standard normal cumulative distribution
function (§4.4), as the measure of a left ray under the standard Gaussian
measure. -/
noncomputable def stdNormalCDF (x : ℝ) : ℝ :=
  (ProbabilityTheory.gaussianReal 0 1 (Set.Iic x)).toReal

/-- Modelled from the spec: d1 of the Black-Scholes formula (§4.4). -/
noncomputable def bsD1 (S0 K T r q sigma : ℝ) : ℝ :=
  (Real.log (S0 / K) + (r - q + sigma ^ 2 / 2) * T) / (sigma * Real.sqrt T)

/-- Modelled from the spec: d2 = d1 − σ√T (§4.4). -/
noncomputable def bsD2 (S0 K T r q sigma : ℝ) : ℝ :=
  bsD1 S0 K T r q sigma - sigma * Real.sqrt T

/-- Modelled from the spec: the Black-Scholes call price
S0·e^(−qT)·Φ(d1) − K·e^(−rT)·Φ(d2) (§4.4); the analytical solver is not
under `src/`. -/
noncomputable def bsCallPrice (S0 K T r q sigma : ℝ) : ℝ :=
  S0 * Real.exp (-q * T) * stdNormalCDF (bsD1 S0 K T r q sigma)
    - K * Real.exp (-r * T) * stdNormalCDF (bsD2 S0 K T r q sigma)

/-- Modelled from the spec: the Black-Scholes put price
K·e^(−rT)·Φ(−d2) − S0·e^(−qT)·Φ(−d1) (§4.4). -/
noncomputable def bsPutPrice (S0 K T r q sigma : ℝ) : ℝ :=
  K * Real.exp (-r * T) * stdNormalCDF (-bsD2 S0 K T r q sigma)
    - S0 * Real.exp (-q * T) * stdNormalCDF (-bsD1 S0 K T r q sigma)

/-- A concrete filled-in form, used by witnesses and counterexamples. -/
def sampleForm : FormState :=
  { tickerValue := "AAPL", S0 := .str "100", K := .str "100", T := .str "1",
    r := .str "0.05", sigma := .str "0.2", q := some (.str "0.0"),
    steps := .str "100" }

/-- The sample form on a page without the dividend-yield input. -/
def qlessForm : FormState :=
  { sampleForm with q := none }

/-- A results panel before any result has been shown. -/
def blankPanel : ResultsPanel :=
  { resultsHidden := true, convergenceSectionHidden := true,
    bsCallText := "", bsPutText := "", mcCallText := "", mcPutText := "",
    mcCallErrText := "", mcPutErrText := "" }

/-- A concrete stock-data response, used by witnesses. -/
def sampleFetch : FetchData :=
  { current_price := 100, volatility := 1 / 5, risk_free_rate := 1 / 20,
    currency := some "$" }

/-- A raw validator input with a zero spot price, otherwise well formed. -/
def zeroSpotInput : RawParams :=
  { S0 := some 0, K := some 100, T := some 1, r := some (1 / 20),
    sigma := some (1 / 5), q := some (some 0), steps := some 100,
    N := some 10000 }

lemma uiStep_hidden_iff (s : UIState)
    (h : s.convergenceHidden = true ↔ s.methodValue = "antithetic") (e : UIEvent) :
    ((uiStep s e).convergenceHidden = true ↔ (uiStep s e).methodValue = "antithetic") := by
  cases e with
  | optionClick m => cases m <;> simp [uiStep, Method.dataValue]
  | triggerClick => simpa [uiStep] using h
  | outsideClick => simpa [uiStep] using h

lemma uiRun_hidden_iff (evs : List UIEvent) :
    ((uiRun evs).convergenceHidden = true ↔ (uiRun evs).methodValue = "antithetic") := by
  have h : ∀ s : UIState, (s.convergenceHidden = true ↔ s.methodValue = "antithetic") →
      ((evs.foldl uiStep s).convergenceHidden = true ↔
        (evs.foldl uiStep s).methodValue = "antithetic") := by
    induction evs with
    | nil => intro s hs; exact hs
    | cons e tl ih => intro s hs; exact ih _ (uiStep_hidden_iff s hs e)
  exact h uiInit (by decide)

lemma uiRun_method_mem (evs : List UIEvent) :
    (uiRun evs).methodValue ∈ (["standard", "antithetic", "control_variate"] : List String) := by
  have h : ∀ s : UIState,
      s.methodValue ∈ (["standard", "antithetic", "control_variate"] : List String) →
      (evs.foldl uiStep s).methodValue
        ∈ (["standard", "antithetic", "control_variate"] : List String) := by
    induction evs with
    | nil => intro s hs; exact hs
    | cons e tl ih =>
        intro s hs
        refine ih _ ?_
        cases e with
        | optionClick m => cases m <;> simp [uiStep, Method.dataValue]
        | triggerClick => simpa [uiStep] using hs
        | outsideClick => simpa [uiStep] using hs
  exact h uiInit (by decide)

/-- C1: in every reachable UI state in which the selected method value is
`antithetic` the convergence button carries the `hidden` class, and
selecting `standard` or `control_variate` removes that class, so a
convergence request can only be initiated with a non-antithetic method. -/
theorem antithetic_method_hides_convergence (evs : List UIEvent) :
    ((uiRun evs).methodValue = "antithetic" → (uiRun evs).convergenceHidden = true)
    ∧ (uiStep (uiRun evs) (.optionClick .standard)).convergenceHidden = false
    ∧ (uiStep (uiRun evs) (.optionClick .controlVariate)).convergenceHidden = false := by
  refine ⟨fun h => (uiRun_hidden_iff evs).2 h, ?_, ?_⟩ <;>
    simp [uiStep, Method.dataValue]

/-- Witness for the C1 theorem, at the event list that selects Antithetic. -/
theorem antithetic_method_hides_convergence_witness :
    (uiRun [UIEvent.optionClick .antithetic]).convergenceHidden = true :=
  (antithetic_method_hides_convergence [UIEvent.optionClick .antithetic]).1 (by decide)

/-- C2: a Simulate response with a non-ok status makes the submit handler
alert the response body's `error` field, and `displayResults` is not
invoked: the results panel keeps its previous contents and no path chart
is rendered, so a failed request produces no partial result. -/
theorem simulate_error_no_partial_result (cur : String) (fs : FormState)
    (ui : UIState) (panel0 : ResultsPanel) (e : Option String) :
    (simulateHandler cur fs ui panel0 (.httpError e)).alerts = [jsAlertString e]
    ∧ (simulateHandler cur fs ui panel0 (.httpError e)).panel = panel0
    ∧ (simulateHandler cur fs ui panel0 (.httpError e)).chart = none :=
  ⟨rfl, rfl, rfl⟩

/-- C3 counterexample: a thrown network/parse exception during a Simulate
request is only logged to the browser console; no alert is raised, so
this failure of a core request is never shown to the user (the `fetch`
handler alerts on exceptions, but the simulate and convergence handlers
do not). -/
theorem simulate_thrown_not_surfaced :
    (simulateHandler "$" sampleForm uiInit blankPanel .thrown).alerts = []
    ∧ (simulateHandler "$" sampleForm uiInit blankPanel .thrown).consoleErrors = 1 :=
  ⟨rfl, rfl⟩

/-- C3 amended: every non-ok Simulate or Convergence response is surfaced
to the user by alerting its `error` field, and no failure of either
request is ever mapped to a default price or partial result (panel,
convergence section and charts are left untouched); a thrown
network/parse exception, however, is only logged to the browser console
and produces no user-visible message. -/
theorem failure_surfacing_no_default_price (cur : String) (fs : FormState)
    (ui : UIState) (panel0 : ResultsPanel) (ch0 : Bool) :
    (∀ e, (simulateHandler cur fs ui panel0 (.httpError e)).alerts = [jsAlertString e]
      ∧ (simulateHandler cur fs ui panel0 (.httpError e)).panel = panel0
      ∧ (simulateHandler cur fs ui panel0 (.httpError e)).chart = none)
    ∧ ((simulateHandler cur fs ui panel0 .thrown).alerts = []
      ∧ (simulateHandler cur fs ui panel0 .thrown).consoleErrors = 1
      ∧ (simulateHandler cur fs ui panel0 .thrown).panel = panel0
      ∧ (simulateHandler cur fs ui panel0 .thrown).chart = none)
    ∧ (∀ e, (convergenceHandler fs ui ch0 (.httpError e)).alerts = [jsAlertString e]
      ∧ (convergenceHandler fs ui ch0 (.httpError e)).convSectionHidden = ch0
      ∧ (convergenceHandler fs ui ch0 (.httpError e)).chart = none)
    ∧ ((convergenceHandler fs ui ch0 .thrown).alerts = []
      ∧ (convergenceHandler fs ui ch0 .thrown).consoleErrors = 1
      ∧ (convergenceHandler fs ui ch0 .thrown).convSectionHidden = ch0
      ∧ (convergenceHandler fs ui ch0 .thrown).chart = none) :=
  ⟨fun _ => ⟨rfl, rfl, rfl⟩, ⟨rfl, rfl, rfl, rfl⟩,
   fun _ => ⟨rfl, rfl, rfl⟩, ⟨rfl, rfl, rfl, rfl⟩⟩

/-- C4: every Simulate request body is a JSON object with exactly the
eight fields S0, K, T, r, sigma, q, steps, method (in source order), the
method value is one of the three supported tags in every reachable UI
state, and the body is posted to `/api/simulate`. -/
theorem simulate_request_shape (evs : List UIEvent) (cur : String)
    (fs : FormState) (panel0 : ResultsPanel) (o : Outcome SimResponse) :
    (simulateHandler cur fs (uiRun evs) panel0 o).url = "/api/simulate"
    ∧ (simulateHandler cur fs (uiRun evs) panel0 o).body = simulatePayload fs (uiRun evs)
    ∧ (simulatePayload fs (uiRun evs)).map Prod.fst
        = ["S0", "K", "T", "r", "sigma", "q", "steps", "method"]
    ∧ (simulatePayload fs (uiRun evs)).lookup "method"
        = some (.str (uiRun evs).methodValue)
    ∧ (uiRun evs).methodValue
        ∈ (["standard", "antithetic", "control_variate"] : List String) :=
  ⟨rfl, rfl, rfl, rfl, uiRun_method_mem evs⟩

/-- C5: every Convergence request body is a JSON object with exactly the
seven fields S0, K, T, r, sigma, q, method — in particular no `steps`
field — posted to `/api/convergence`. -/
theorem convergence_request_shape (evs : List UIEvent) (fs : FormState)
    (ch0 : Bool) (o : Outcome ConvResponse) :
    (convergenceHandler fs (uiRun evs) ch0 o).url = "/api/convergence"
    ∧ (convergenceHandler fs (uiRun evs) ch0 o).body = convergencePayload fs (uiRun evs)
    ∧ (convergencePayload fs (uiRun evs)).map Prod.fst
        = ["S0", "K", "T", "r", "sigma", "q", "method"]
    ∧ "steps" ∉ (convergencePayload fs (uiRun evs)).map Prod.fst := by
  refine ⟨rfl, rfl, rfl, ?_⟩
  rw [show (convergencePayload fs (uiRun evs)).map Prod.fst
      = ["S0", "K", "T", "r", "sigma", "q", "method"] from rfl]
  decide

/-- C6: when the dividend-yield input does not exist, both the Simulate
and the Convergence payload carry q = 0.0 (a JSON number), and a
successful stock-data fetch resets the q field, when it exists, to the
string `0.0`. -/
theorem q_defaults_to_zero :
    (∀ (fs : FormState) (ui : UIState), fs.q = none →
        (simulatePayload fs ui).lookup "q" = some (.num 0)
        ∧ (convergencePayload fs ui).lookup "q" = some (.num 0))
    ∧ (∀ (fs : FormState) (cur label0 : String) (disabled0 : Bool) (d : FetchData),
        fs.tickerValue ≠ "" →
        (fetchHandler fs cur label0 disabled0 (.ok d)).form.q
          = fs.q.map (fun _ => JsVal.str "0.0")) := by
  constructor
  · intro fs ui h
    constructor
    · simp only [simulatePayload, h]; rfl
    · simp only [convergencePayload, h]; rfl
  · intro fs cur label0 disabled0 d h
    simp [fetchHandler, h]

/-- Witness for the C6 theorem on a form without the q input. -/
theorem q_defaults_to_zero_witness :
    (simulatePayload qlessForm uiInit).lookup "q" = some (.num 0) :=
  (q_defaults_to_zero.1 qlessForm uiInit rfl).1

/-- C9: each of the three request handlers re-enables its button and
restores its idle label on every completion path — ok response, error
response, or thrown exception (for the fetch handler, whenever a request
was actually issued, i.e. the ticker is nonempty). -/
theorem buttons_restored_on_completion :
    (∀ (fs : FormState) (cur label0 : String) (disabled0 : Bool) (o : Outcome FetchData),
        fs.tickerValue ≠ "" →
        (fetchHandler fs cur label0 disabled0 o).btnLabel = "Fetch Data"
        ∧ (fetchHandler fs cur label0 disabled0 o).btnDisabled = false)
    ∧ (∀ (cur : String) (fs : FormState) (ui : UIState) (panel0 : ResultsPanel)
        (o : Outcome SimResponse),
        (simulateHandler cur fs ui panel0 o).btnLabel = "Run Simulation"
        ∧ (simulateHandler cur fs ui panel0 o).btnDisabled = false)
    ∧ (∀ (fs : FormState) (ui : UIState) (ch0 : Bool) (o : Outcome ConvResponse),
        (convergenceHandler fs ui ch0 o).btnLabel = "Analyze Convergence"
        ∧ (convergenceHandler fs ui ch0 o).btnDisabled = false) := by
  refine ⟨?_, ?_, ?_⟩
  · intro fs cur label0 disabled0 o h
    constructor <;> simp [fetchHandler, h]
  · intro cur fs ui panel0 o; exact ⟨rfl, rfl⟩
  · intro fs ui ch0 o; exact ⟨rfl, rfl⟩

/-- Witness for the C9 theorem: the fetch button after a thrown exception. -/
theorem buttons_restored_on_completion_witness :
    (fetchHandler sampleForm "$" "Loading..." true .thrown).btnLabel = "Fetch Data" :=
  (buttons_restored_on_completion.1 sampleForm "$" "Loading..." true .thrown (by decide)).1

/-- C10: a successful stock-data fetch writes the fetched current price,
rounded to two decimals, into both the spot field S0 and the strike field
K, so the form defaults to an at-the-money option. -/
theorem fetch_sets_strike_at_the_money (fs : FormState) (cur label0 : String)
    (disabled0 : Bool) (d : FetchData) (h : fs.tickerValue ≠ "") :
    (fetchHandler fs cur label0 disabled0 (.ok d)).form.K
      = (fetchHandler fs cur label0 disabled0 (.ok d)).form.S0
    ∧ (fetchHandler fs cur label0 disabled0 (.ok d)).form.S0
      = .str (toFixed 2 d.current_price) := by
  constructor <;> simp [fetchHandler, h]

/-- Witness for the C10 theorem on the sample form and fetched data. -/
theorem fetch_sets_strike_at_the_money_witness :
    (fetchHandler sampleForm "$" "Fetch Data" false (.ok sampleFetch)).form.K
      = (fetchHandler sampleForm "$" "Fetch Data" false (.ok sampleFetch)).form.S0 :=
  (fetch_sets_strike_at_the_money sampleForm "$" "Fetch Data" false sampleFetch (by decide)).1

open MeasureTheory in
lemma stdNormalCDF_add_neg (x : ℝ) : stdNormalCDF x + stdNormalCDF (-x) = 1 := by
  have hmap : (ProbabilityTheory.gaussianReal 0 1).map (fun y => (-1 : ℝ) * y)
      = ProbabilityTheory.gaussianReal 0 1 := by
    rw [ProbabilityTheory.gaussianReal_map_const_mul (-1)]
    norm_num
  have hIic : ProbabilityTheory.gaussianReal 0 1 (Set.Iic (-x))
      = ProbabilityTheory.gaussianReal 0 1 (Set.Ici x) := by
    conv_lhs => rw [← hmap]
    rw [Measure.map_apply (measurable_const_mul (-1)) measurableSet_Iic]
    congr 1
    ext y
    simp only [Set.mem_preimage, Set.mem_Iic, Set.mem_Ici]
    constructor <;> intro hy <;> linarith
  have hsing : ProbabilityTheory.gaussianReal 0 1 ({x} : Set ℝ) = 0 :=
    ProbabilityTheory.gaussianReal_absolutelyContinuous 0 one_ne_zero Real.volume_singleton
  have hsum : ProbabilityTheory.gaussianReal 0 1 (Set.Iic x)
      + ProbabilityTheory.gaussianReal 0 1 (Set.Ici x) = 1 := by
    have h1 := measure_union_add_inter (μ := ProbabilityTheory.gaussianReal 0 1)
      (Set.Iic x) (measurableSet_Ici (a := x))
    rw [Set.Iic_union_Ici, Set.Iic_inter_Ici, Set.Icc_self, hsing, add_zero,
      measure_univ] at h1
    exact h1.symm
  unfold stdNormalCDF
  rw [hIic, ← ENNReal.toReal_add (measure_ne_top _ _) (measure_ne_top _ _), hsum,
    ENNReal.one_toReal]

/-- C7: put-call parity for the analytical solver: for all valid
parameters, Call − Put = S0·e^(−qT) − K·e^(−rT); over the real-number
model the identity is exact, so it holds within any floating-point
tolerance. -/
theorem put_call_parity (S0 K T r q sigma : ℝ) (hS0 : 0 < S0) (hK : 0 < K)
    (hT : 0 < T) (hsigma : 0 ≤ sigma) (hq : 0 ≤ q) :
    bsCallPrice S0 K T r q sigma - bsPutPrice S0 K T r q sigma
      = S0 * Real.exp (-q * T) - K * Real.exp (-r * T) := by
  have h1 := stdNormalCDF_add_neg (bsD1 S0 K T r q sigma)
  have h2 := stdNormalCDF_add_neg (bsD2 S0 K T r q sigma)
  unfold bsCallPrice bsPutPrice
  linear_combination (S0 * Real.exp (-q * T)) * h1 - (K * Real.exp (-r * T)) * h2

/-- Witness for the C7 theorem at the spec's concrete scenario
S0 = K = 100, T = 1, r = 0.05, σ = 0.2, q = 0. -/
theorem put_call_parity_witness :
    bsCallPrice 100 100 1 (5 / 100) 0 (2 / 10) - bsPutPrice 100 100 1 (5 / 100) 0 (2 / 10)
      = 100 * Real.exp (-0 * 1) - 100 * Real.exp (-(5 / 100) * 1) :=
  put_call_parity 100 100 1 (5 / 100) 0 (2 / 10) (by norm_num) (by norm_num)
    (by norm_num) (by norm_num) (by norm_num)

lemma validateParams_ok_inv (p : RawParams) (op : OptionParameters)
    (sc : SimulationConfig) (h : validateParams p = .ok (op, sc)) :
    p.S0 = some op.S0 ∧ p.K = some op.K ∧ p.T = some op.T ∧ p.r = some op.r ∧
    p.sigma = some op.sigma ∧ p.q.getD (some 0) = some op.q ∧
    p.steps = some sc.steps ∧ p.N = some sc.N ∧
    0 < op.S0 ∧ 0 < op.K ∧ 0 < op.T ∧ 0 ≤ op.sigma ∧ 1 ≤ sc.steps ∧ 1 ≤ sc.N := by
  unfold validateParams at h
  split at h
  next s0 k t rr sig qv st n hS0 hK hT hr hsig hq hst hn =>
    rw [hS0, hK, hT, hr, hsig, hq, hst, hn]
    split_ifs at h with hcond
    push_neg at hcond
    obtain ⟨hc1, hc2, hc3, hc4, hc5, hc6⟩ := hcond
    obtain ⟨hop, hsc⟩ :
        ({ S0 := s0, K := k, T := t, r := rr, q := qv, sigma := sig } : OptionParameters) = op
          ∧ ({ steps := st, N := n } : SimulationConfig) = sc := by
      simpa using h
    subst hop
    subst hsc
    exact ⟨rfl, rfl, rfl, rfl, rfl, rfl, rfl, rfl, hc1, hc2, hc3, hc4, hc5, hc6⟩
  next => simp at h

/-- C8: any raw input with a supplied S0, K or T that is nonpositive, a
negative σ, steps or N below 1, or any required value that cannot be
parsed as a finite number, is rejected by the Parameter Validator with
`InvalidParameter`, so no price is produced. -/
theorem invalid_input_rejected (p : RawParams) (h : p.invalid) :
    validateParams p = .error .invalidParameter := by
  cases hv : validateParams p with
  | error e => cases e; rfl
  | ok res =>
      exfalso
      obtain ⟨op, sc⟩ := res
      obtain ⟨h1, h2, h3, h4, h5, h6, h7, h8, b1, b2, b3, b4, b5, b6⟩ :=
        validateParams_ok_inv p op sc hv
      rcases h with ⟨v, hv2, hle⟩ | ⟨v, hv2, hle⟩ | ⟨v, hv2, hle⟩ | ⟨v, hv2, hle⟩ |
        ⟨v, hv2, hle⟩ | ⟨v, hv2, hle⟩ | hn | hn | hn | hn | hn | hn | hn | hn
      · rw [hv2] at h1; injection h1 with he; rw [he] at hle; linarith
      · rw [hv2] at h2; injection h2 with he; rw [he] at hle; linarith
      · rw [hv2] at h3; injection h3 with he; rw [he] at hle; linarith
      · rw [hv2] at h5; injection h5 with he; rw [he] at hle; linarith
      · rw [hv2] at h7; injection h7 with he; rw [he] at hle; omega
      · rw [hv2] at h8; injection h8 with he; rw [he] at hle; omega
      · rw [hn] at h1; exact Option.noConfusion h1
      · rw [hn] at h2; exact Option.noConfusion h2
      · rw [hn] at h3; exact Option.noConfusion h3
      · rw [hn] at h4; exact Option.noConfusion h4
      · rw [hn] at h5; exact Option.noConfusion h5
      · rw [hn] at h6; simp at h6
      · rw [hn] at h7; exact Option.noConfusion h7
      · rw [hn] at h8; exact Option.noConfusion h8

/-- Witness for the C8 theorem: the input with S0 = 0 is rejected. -/
theorem invalid_input_rejected_witness :
    validateParams zeroSpotInput = .error .invalidParameter :=
  invalid_input_rejected zeroSpotInput (Or.inl ⟨0, rfl, le_refl 0⟩)
